import Mathlib

/-!
Shallow embedding of the MCP conversation/tool orchestration core
(`app/mcp-client.js` and the conversation-loop portion of
`app/routes/chat.jsx`) and proofs of the specified properties.

JavaScript effects are made explicit: the external world (HTTP fetch,
JSON parsing, token database, authorization-URL generator) is an `Env`
of functions, mutable client state is threaded as an `MCPClient` value,
a thrown exception is the `Except.error` side of a result, and every
observable side effect (network call, token lookup, auth-URL request)
is recorded in an effect log.
-/

namespace MCP

/-- A raw tool descriptor as advertised by a backend's `tools/list`:
the upstream may use either `inputSchema` or `input_schema`. -/
structure RawTool where
  name : String
  description : String
  inputSchema : Option String
  input_schema : Option String
deriving Repr, DecidableEq

/-- A normalized tool descriptor, the output of `_formatToolsData`. -/
structure Tool where
  name : String
  description : String
  input_schema : Option String
deriving Repr, DecidableEq

/-- `MCPClient._formatToolsData`: normalizes raw descriptors, taking
`inputSchema` when present (JS `tool.inputSchema || tool.input_schema`). -/
def formatToolsData (toolsData : List RawTool) : List Tool :=
  toolsData.map fun tool =>
    { name := tool.name
      description := tool.description
      input_schema := match tool.inputSchema with
        | some s => some s
        | none => tool.input_schema }

/-- A thrown JavaScript `Error`; `status` models the optional `.status`
property set on HTTP errors by `_makeJsonRpcRequest` (absent on network
errors and on `JSON.parse` failures). -/
structure JsError where
  message : String
  status : Option Nat
deriving Repr, DecidableEq

/-- A decoded JSON-RPC result object: `tools` for `tools/list`,
`payload` abstracts any other content. -/
structure RpcResult where
  tools : Option (List RawTool)
  payload : String
deriving Repr, DecidableEq

/-- A decoded JSON-RPC response envelope (`{result}` possibly absent). -/
structure Envelope where
  result : Option RpcResult
deriving Repr, DecidableEq

/-- An HTTP response as seen by the client: status, status text,
optional `Location` header and raw body text. -/
structure HttpResponse where
  status : Nat
  statusText : String
  location : Option String
  text : String
deriving Repr, DecidableEq

/-- `Response.ok` of the fetch API: status in the 2xx range. -/
def HttpResponse.ok (r : HttpResponse) : Bool :=
  200 ≤ r.status && r.status < 300

/-- Request headers: `Content-Type` plus an optional `Authorization`. -/
structure Headers where
  contentType : String
  authorization : Option String
deriving Repr, DecidableEq

/-- JSON-RPC request params: `{}` for `tools/list`,
`{name, arguments}` for `tools/call`. -/
inductive RpcParams where
  | empty
  | toolCall (name : String) (arguments : String)
deriving Repr, DecidableEq

/-- A persisted customer token row (`getCustomerToken` result). -/
structure DbToken where
  accessToken : String
deriving Repr, DecidableEq

/-- The authorization-URL generator's response (`generateAuthUrl`). -/
structure AuthUrlResponse where
  url : String
deriving Repr, DecidableEq

/-- Observable side effects of client operations. -/
inductive Effect where
  | fetchCall (endpoint : String) (method : String) (auth : Option String)
  | tokenLookup (conversationId : String)
  | authUrlCall (conversationId : String) (shopId : String)
deriving Repr, DecidableEq

/-- The external world: HTTP fetch, JSON parsing, the token store and
the authorization-URL generator. -/
structure Env where
  fetch : String → String → RpcParams → Headers → Except JsError HttpResponse
  parse : String → Option Envelope
  getCustomerToken : String → Option DbToken
  generateAuthUrl : String → String → AuthUrlResponse

/-- `MCPClient._makeJsonRpcRequest`, given the fetch outcome: a non-2xx
status throws an error carrying `.status` and a body snippet; a 2xx body
that does not parse as JSON throws a parse error (no `.status`). -/
def makeJsonRpcRequest (parse : String → Option Envelope)
    (fetchResult : Except JsError HttpResponse) : Except JsError Envelope :=
  match fetchResult with
  | .error e => .error e
  | .ok res =>
    if res.ok then
      match parse res.text with
      | some env => .ok env
      | none => .error { message := "Unexpected token in JSON", status := none }
    else
      .error
        { message := "Request failed: " ++ toString res.status ++ " "
            ++ res.statusText ++ " -- " ++ res.text.take 200
          status := some res.status }

/-- The mutable state of one `MCPClient` instance. -/
structure MCPClient where
  shopDomain : String
  conversationId : String
  shopId : String
  storefrontMcpEndpoint : String
  customerMcpEndpoint : String
  customerAccessToken : String
  tools : List Tool
  customerTools : List Tool
  storefrontTools : List Tool
deriving Repr, DecidableEq

/-- JS `s.replace(/\/+$/, "")`: drop trailing slashes. -/
def stripTrailingSlashes (s : String) : String :=
  ((s.toList.reverse.dropWhile fun c => c = '/').reverse).asString

/-- The account subdomain rewrite of the constructor:
`x.myshopify.com` becomes `x.account.myshopify.com`. -/
def accountHost (domain : String) : String :=
  if domain.endsWith ".myshopify.com" then
    (domain.dropRight ".myshopify.com".length) ++ ".account.myshopify.com"
  else domain

/-- The `MCPClient` constructor, for an already-normalized hostname.
`customerMcpEndpoint` and `storefrontBaseUrl` are optional (the JS `||`
treats an empty string as absent). -/
def mkMCPClient (hostname conversationId shopId : String)
    (customerMcpEndpoint : Option String) (storefrontBaseUrl : Option String) :
    MCPClient :=
  let storefrontBase := match storefrontBaseUrl with
    | some b => if b = "" then "https://" ++ hostname else stripTrailingSlashes b
    | none => "https://" ++ hostname
  { shopDomain := hostname
    conversationId := conversationId
    shopId := shopId
    storefrontMcpEndpoint := storefrontBase ++ "/api/mcp"
    customerMcpEndpoint := match customerMcpEndpoint with
      | some e =>
        if e = "" then "https://" ++ accountHost hostname ++ "/customer/api/mcp"
        else e
      | none => "https://" ++ accountHost hostname ++ "/customer/api/mcp"
    customerAccessToken := ""
    tools := []
    customerTools := []
    storefrontTools := [] }

/-- The cached token after the token-lookup prologue of
`connectToCustomerServer`: when a conversation id is present, the store
is queried and a found non-empty token replaces the cache. -/
def connectToken (env : Env) (c : MCPClient) : String :=
  if c.conversationId = "" then c.customerAccessToken
  else
    match env.getCustomerToken c.conversationId with
    | some t => if t.accessToken = "" then c.customerAccessToken else t.accessToken
    | none => c.customerAccessToken

/-- The lookup effects of `connectToCustomerServer`'s prologue. -/
def connectLookupEffects (c : MCPClient) : List Effect :=
  if c.conversationId = "" then [] else [Effect.tokenLookup c.conversationId]

/-- The token after the lazy resolution step of `callCustomerTool`: use
the cached token when non-empty, otherwise query the store once and
cache a found non-empty token (the local `accessToken` and the cache
coincide after the step, since the cache was empty when a lookup ran). -/
def callToken (env : Env) (c : MCPClient) : String :=
  if c.customerAccessToken = "" then
    match env.getCustomerToken c.conversationId with
    | some t => if t.accessToken = "" then "" else t.accessToken
    | none => ""
  else c.customerAccessToken

/-- The lookup effects of `callCustomerTool`'s lazy resolution step. -/
def callLookupEffects (c : MCPClient) : List Effect :=
  if c.customerAccessToken = "" then [Effect.tokenLookup c.conversationId] else []

/-- Headers for a request with an optional bearer token (the JS spread
adds `Authorization` only when the token is truthy). -/
def headersWithToken (token : String) : Headers :=
  { contentType := "application/json"
    authorization := if token = "" then none else some ("Bearer " ++ token) }

/-- `response?.result && response.result.tools ? response.result.tools : []` -/
def toolsOfEnvelope (env : Envelope) : List RawTool :=
  match env.result with
  | some r => match r.tools with
    | some ts => ts
    | none => []
  | none => []

/-- `MCPClient.connectToCustomerServer`: look up and cache a persisted
token, list the customer backend's tools, record them and append them to
the merged list. Failures are logged and rethrown. -/
def connectToCustomerServer (env : Env) (c : MCPClient) :
    Except JsError (List Tool) × MCPClient × List Effect :=
  match makeJsonRpcRequest env.parse
      (env.fetch c.customerMcpEndpoint "tools/list" RpcParams.empty
        (headersWithToken (connectToken env c))) with
  | .error e =>
    (.error e, { c with customerAccessToken := connectToken env c },
      connectLookupEffects c
        ++ [Effect.fetchCall c.customerMcpEndpoint "tools/list"
              (headersWithToken (connectToken env c)).authorization])
  | .ok envl =>
    let customerTools := formatToolsData (toolsOfEnvelope envl)
    (.ok customerTools,
      { c with customerAccessToken := connectToken env c
               customerTools := customerTools
               tools := c.tools ++ customerTools },
      connectLookupEffects c
        ++ [Effect.fetchCall c.customerMcpEndpoint "tools/list"
              (headersWithToken (connectToken env c)).authorization])

/-- `MCPClient.connectToStorefrontServer`: list the storefront backend's
tools, record them and append them to the merged list. Failures are
logged and rethrown. -/
def connectToStorefrontServer (env : Env) (c : MCPClient) :
    Except JsError (List Tool) × MCPClient × List Effect :=
  match makeJsonRpcRequest env.parse
      (env.fetch c.storefrontMcpEndpoint "tools/list" RpcParams.empty
        { contentType := "application/json", authorization := none }) with
  | .error e =>
    (.error e, c, [Effect.fetchCall c.storefrontMcpEndpoint "tools/list" none])
  | .ok envl =>
    let storefrontTools := formatToolsData (toolsOfEnvelope envl)
    (.ok storefrontTools,
      { c with storefrontTools := storefrontTools, tools := c.tools ++ storefrontTools },
      [Effect.fetchCall c.storefrontMcpEndpoint "tools/list" none])

/-- The value a tool call resolves with: `response.result || response`
on success, or a `{error: {type, data}}` object built by the customer
call's recovery paths. -/
inductive ToolOutcome where
  | resultPayload (r : RpcResult)
  | rawEnvelope (e : Envelope)
  | errorResult (etype : String) (data : String)
deriving Repr, DecidableEq

/-- `response.result || response` -/
def outcomeOfEnvelope (envl : Envelope) : ToolOutcome :=
  match envl.result with
  | some r => ToolOutcome.resultPayload r
  | none => ToolOutcome.rawEnvelope envl

/-- The auth-required message built in the 401 recovery branch. -/
def authRequiredMessage (url : String) : String :=
  "You need to authorize the app to access your customer data. [Click here to authorize]("
    ++ url ++ ")"

/-- `MCPClient.callCustomerTool`: resolve the token lazily, call the
customer backend; a 401 is recovered into an `auth_required` error
result embedding a fresh authorization URL, and any other failure is
caught and returned as an `internal_error` result. Never throws. -/
def callCustomerTool (env : Env) (c : MCPClient) (toolName toolArgs : String) :
    ToolOutcome × MCPClient × List Effect :=
  match makeJsonRpcRequest env.parse
      (env.fetch c.customerMcpEndpoint "tools/call"
        (RpcParams.toolCall toolName toolArgs)
        (headersWithToken (callToken env c))) with
  | .ok envl =>
    (outcomeOfEnvelope envl, { c with customerAccessToken := callToken env c },
      callLookupEffects c
        ++ [Effect.fetchCall c.customerMcpEndpoint "tools/call"
              (headersWithToken (callToken env c)).authorization])
  | .error e =>
    if e.status = some 401 then
      (ToolOutcome.errorResult "auth_required"
          (authRequiredMessage (env.generateAuthUrl c.conversationId c.shopId).url),
        { c with customerAccessToken := callToken env c },
        callLookupEffects c
          ++ [Effect.fetchCall c.customerMcpEndpoint "tools/call"
                (headersWithToken (callToken env c)).authorization,
              Effect.authUrlCall c.conversationId c.shopId])
    else
      (ToolOutcome.errorResult "internal_error"
          ("Error calling tool " ++ toolName ++ ": " ++ e.message),
        { c with customerAccessToken := callToken env c },
        callLookupEffects c
          ++ [Effect.fetchCall c.customerMcpEndpoint "tools/call"
                (headersWithToken (callToken env c)).authorization])

/-- `MCPClient.callStorefrontTool`: call the storefront backend; a
failure is logged and rethrown (not converted to an error result). -/
def callStorefrontTool (env : Env) (c : MCPClient) (toolName toolArgs : String) :
    Except JsError ToolOutcome × MCPClient × List Effect :=
  match makeJsonRpcRequest env.parse
      (env.fetch c.storefrontMcpEndpoint "tools/call"
        (RpcParams.toolCall toolName toolArgs)
        { contentType := "application/json", authorization := none }) with
  | .ok envl =>
    (.ok (outcomeOfEnvelope envl), c,
      [Effect.fetchCall c.storefrontMcpEndpoint "tools/call" none])
  | .error e =>
    (.error e, c, [Effect.fetchCall c.storefrontMcpEndpoint "tools/call" none])

/-- `MCPClient.callTool`: scan the customer catalog first, then the
storefront catalog; throw `Tool ... not found` when neither advertises
the name. -/
def callTool (env : Env) (c : MCPClient) (toolName toolArgs : String) :
    Except JsError ToolOutcome × MCPClient × List Effect :=
  if c.customerTools.any fun tool => tool.name == toolName then
    let r := callCustomerTool env c toolName toolArgs
    (.ok r.1, r.2.1, r.2.2)
  else if c.storefrontTools.any fun tool => tool.name == toolName then
    callStorefrontTool env c toolName toolArgs
  else
    (.error { message := "Tool " ++ toolName ++ " not found", status := none }, c, [])

/-- Result of the catalog-discovery phase of `handleChatSession`. -/
structure ConnectPhaseResult where
  client : MCPClient
  storefrontMcpTools : List Tool
  customerMcpTools : List Tool
  warned : Bool
deriving Repr, DecidableEq

/-- The catalog-discovery phase of `handleChatSession`: one `try` block
connects to the storefront backend, then (when gated on) to the customer
backend; the single `catch` logs a warning and continues, so a failure
abandons the rest of the block. -/
def connectPhase (env : Env) (enableCustomerMcp : Bool)
    (customerMcpEndpointOk : Bool) (c : MCPClient) : ConnectPhaseResult :=
  match connectToStorefrontServer env c with
  | (.error _, c1, _) =>
    { client := c1, storefrontMcpTools := [], customerMcpTools := [], warned := true }
  | (.ok sf, c1, _) =>
    if enableCustomerMcp && customerMcpEndpointOk then
      match connectToCustomerServer env c1 with
      | (.error _, c2, _) =>
        { client := c2, storefrontMcpTools := sf, customerMcpTools := [], warned := true }
      | (.ok cu, c2, _) =>
        { client := c2, storefrontMcpTools := sf, customerMcpTools := cu, warned := false }
    else
      { client := c1, storefrontMcpTools := sf, customerMcpTools := [], warned := false }

/-- Events sent over the SSE stream by the conversation loop. -/
inductive StreamEvent where
  | idEvent (conversationId : String)
  | chunk (text : String)
  | toolUse (message : String)
  | newMessage
  | messageComplete
  | contentBlockComplete
  | endTurn
  | productResults
deriving Repr, DecidableEq

/-- One callback invocation made by the LLM provider during a turn. -/
inductive CallbackInvocation where
  | onText (delta : String)
  | onMessage (role : String) (content : String)
  | onToolUse (name : String) (input : String) (toolUseId : String)
  | onContentBlock (blockType : String) (textContent : String)
deriving Repr, DecidableEq

/-- The final message a provider call resolves with; the seed user
message has no `stop_reason` (`none`). -/
structure FinalMessage where
  role : String
  content : String
  stop_reason : Option String
deriving Repr, DecidableEq

/-- One provider turn: the callback invocations it makes, in order, and
the final message it resolves with. -/
structure ProviderTurn where
  invocations : List CallbackInvocation
  final : FinalMessage
deriving Repr

/-- The stream events emitted by `handleChatSession`'s callbacks for one
provider callback invocation (the tool execution between `tool_use` and
`new_message` is handled by the tool service and emits through it). -/
def eventsOfInvocation : CallbackInvocation → List StreamEvent
  | .onText delta => [StreamEvent.chunk delta]
  | .onMessage _ _ => [StreamEvent.messageComplete]
  | .onToolUse name input _ =>
    [StreamEvent.toolUse ("Calling tool: " ++ name ++ " with arguments: " ++ input),
      StreamEvent.newMessage]
  | .onContentBlock blockType _ =>
    if blockType = "text" then [StreamEvent.contentBlockComplete] else []

/-- All stream events of one provider turn. -/
def eventsOfTurn (turn : ProviderTurn) : List StreamEvent :=
  (turn.invocations.map eventsOfInvocation).flatten

/-- The `while (finalMessage.stop_reason !== "end_turn")` loop of
`handleChatSession`, with explicit fuel (the JS loop is unbounded).
Returns the number of provider calls made and the emitted events, or
`none` when the fuel runs out before termination. -/
def runConversationLoop (provider : Nat → ProviderTurn) :
    Nat → Nat → Option String → List StreamEvent → Option (Nat × List StreamEvent)
  | 0, _, _, _ => none
  | fuel + 1, calls, stopReason, events =>
    if stopReason = some "end_turn" then some (calls, events)
    else
      runConversationLoop provider fuel (calls + 1) (provider calls).final.stop_reason
        (events ++ eventsOfTurn (provider calls))

/-- The conversation-loop fragment of `handleChatSession`: run the loop
from the seed user message (no stop reason), then emit `end_turn`. -/
def chatSessionRun (provider : Nat → ProviderTurn) (fuel : Nat) :
    Option (Nat × List StreamEvent) :=
  match runConversationLoop provider fuel 0 none [] with
  | some (calls, events) => some (calls, events ++ [StreamEvent.endTurn])
  | none => none

/-- Recognizers for counting events. -/
def isEndTurnEvent : StreamEvent → Bool
  | .endTurn => true
  | _ => false

def isToolUseEvent : StreamEvent → Bool
  | .toolUse _ => true
  | _ => false

def isToolUseInvocation : CallbackInvocation → Bool
  | .onToolUse _ _ _ => true
  | _ => false

def isTokenLookupEffect : Effect → Bool
  | .tokenLookup _ => true
  | _ => false

/-- A choice of backend to connect to, for sequences of connect calls. -/
inductive ConnectChoice where
  | storefront
  | customer
deriving Repr, DecidableEq

/-- Run a sequence of connect calls on one client instance, recording
each call's returned catalog; `none` when any call throws. -/
def runConnects (env : Env) (c : MCPClient) :
    List ConnectChoice → Option (MCPClient × List (ConnectChoice × List Tool))
  | [] => some (c, [])
  | ConnectChoice.storefront :: rest =>
    match connectToStorefrontServer env c with
    | (.error _, _, _) => none
    | (.ok ts, c1, _) =>
      match runConnects env c1 rest with
      | none => none
      | some (c2, pairs) => some (c2, (ConnectChoice.storefront, ts) :: pairs)
  | ConnectChoice.customer :: rest =>
    match connectToCustomerServer env c with
    | (.error _, _, _) => none
    | (.ok ts, c1, _) =>
      match runConnects env c1 rest with
      | none => none
      | some (c2, pairs) => some (c2, (ConnectChoice.customer, ts) :: pairs)

/-- The catalog from the last connect call to the given backend in the
recorded sequence, or the default when that backend was never called. -/
def lastCatalog (choice : ConnectChoice)
    (pairs : List (ConnectChoice × List Tool)) (dflt : List Tool) : List Tool :=
  match pairs with
  | [] => dflt
  | (c2, ts) :: rest => lastCatalog choice rest (if c2 = choice then ts else dflt)

/-! ## Concrete fixtures for witnesses and counterexamples -/

/-- A normalized tool descriptor with a given name. -/
def tTool (n : String) : Tool :=
  { name := n, description := "d", input_schema := some "s" }

/-- A raw tool descriptor with a given name, using the `inputSchema` key. -/
def rTool (n : String) : RawTool :=
  { name := n, description := "d", inputSchema := some "s", input_schema := none }

def custEP : String := "https://shop.account.myshopify.com/customer/api/mcp"

def sfEP : String := "https://shop.myshopify.com/api/mcp"

/-- A client with both catalogs populated; the name `both_tool` is
advertised by the customer and the storefront backend. -/
def sampleClient : MCPClient :=
  { shopDomain := "shop.myshopify.com"
    conversationId := "conv1"
    shopId := "shop1"
    storefrontMcpEndpoint := sfEP
    customerMcpEndpoint := custEP
    customerAccessToken := ""
    tools := [tTool "cust_tool", tTool "both_tool", tTool "both_tool", tTool "sf_tool"]
    customerTools := [tTool "cust_tool", tTool "both_tool"]
    storefrontTools := [tTool "both_tool", tTool "sf_tool"] }

/-- A fresh client: both catalogs and the merged list empty, no token. -/
def freshClient : MCPClient :=
  { shopDomain := "shop.myshopify.com"
    conversationId := "conv1"
    shopId := "shop1"
    storefrontMcpEndpoint := sfEP
    customerMcpEndpoint := custEP
    customerAccessToken := ""
    tools := []
    customerTools := []
    storefrontTools := [] }

/-- An environment where every request comes back `401 Unauthorized`. -/
def env401 : Env :=
  { fetch := fun _ _ _ _ =>
      Except.ok { status := 401, statusText := "Unauthorized", location := none, text := "denied" }
    parse := fun _ => none
    getCustomerToken := fun _ => none
    generateAuthUrl := fun cid sid => { url := "https://auth.example/" ++ cid ++ "/" ++ sid } }

/-- An environment where every fetch throws a network error. -/
def envDown : Env :=
  { fetch := fun _ _ _ _ => Except.error { message := "network down", status := none }
    parse := fun _ => none
    getCustomerToken := fun _ => none
    generateAuthUrl := fun cid sid => { url := "https://auth.example/" ++ cid ++ "/" ++ sid } }

/-- An environment where both backends answer `tools/list` with a
catalog: the storefront advertises two tools, the customer one. -/
def envOk : Env :=
  { fetch := fun ep _ _ _ =>
      if ep = custEP then
        Except.ok { status := 200, statusText := "OK", location := none, text := "cust-tools" }
      else if ep = sfEP then
        Except.ok { status := 200, statusText := "OK", location := none, text := "sf-tools" }
      else Except.error { message := "no such host", status := none }
    parse := fun s =>
      if s = "cust-tools" then
        some { result := some { tools := some [rTool "cust_tool"], payload := "" } }
      else if s = "sf-tools" then
        some { result := some { tools := some [rTool "search_products", rTool "sf_tool"], payload := "" } }
      else none
    getCustomerToken := fun _ => none
    generateAuthUrl := fun cid sid => { url := "https://auth.example/" ++ cid ++ "/" ++ sid } }

/-- An environment where the storefront backend is down but the
customer backend answers `tools/list` with one tool. -/
def envSfDown : Env :=
  { fetch := fun ep _ _ _ =>
      if ep = custEP then
        Except.ok { status := 200, statusText := "OK", location := none, text := "cust-tools" }
      else Except.error { message := "network down", status := none }
    parse := fun s =>
      if s = "cust-tools" then
        some { result := some { tools := some [rTool "cust_tool"], payload := "" } }
      else none
    getCustomerToken := fun _ => none
    generateAuthUrl := fun cid sid => { url := "https://auth.example/" ++ cid ++ "/" ++ sid } }

/-- A client that already holds a cached customer token. -/
def tokClient : MCPClient :=
  { sampleClient with customerAccessToken := "tok123" }

/-- An environment whose token store holds a token for `conv1`. -/
def envTok : Env :=
  { fetch := fun ep _ _ _ =>
      if ep = custEP then
        Except.ok { status := 200, statusText := "OK", location := none, text := "cust-tools" }
      else if ep = sfEP then
        Except.ok { status := 200, statusText := "OK", location := none, text := "sf-tools" }
      else Except.error { message := "no such host", status := none }
    parse := fun s =>
      if s = "cust-tools" then
        some { result := some { tools := some [rTool "cust_tool"], payload := "" } }
      else if s = "sf-tools" then
        some { result := some { tools := some [rTool "search_products", rTool "sf_tool"], payload := "" } }
      else none
    getCustomerToken := fun cid =>
      if cid = "conv1" then some { accessToken := "tok456" } else none
    generateAuthUrl := fun cid sid => { url := "https://auth.example/" ++ cid ++ "/" ++ sid } }

/-- An environment where the storefront backend answers `tools/list`
but the customer backend is down. -/
def envCustDown : Env :=
  { fetch := fun ep _ _ _ =>
      if ep = sfEP then
        Except.ok { status := 200, statusText := "OK", location := none, text := "sf-tools" }
      else Except.error { message := "network down", status := none }
    parse := fun s =>
      if s = "sf-tools" then
        some { result := some { tools := some [rTool "search_products", rTool "sf_tool"], payload := "" } }
      else none
    getCustomerToken := fun _ => none
    generateAuthUrl := fun cid sid => { url := "https://auth.example/" ++ cid ++ "/" ++ sid } }

/-- The recorded catalogs of connecting storefront, storefront, then
customer against `envOk`. -/
def c10pairs : List (ConnectChoice × List Tool) :=
  [(ConnectChoice.storefront, [tTool "search_products", tTool "sf_tool"]),
    (ConnectChoice.storefront, [tTool "search_products", tTool "sf_tool"]),
    (ConnectChoice.customer, [tTool "cust_tool"])]

/-- The client state after those three connect calls from
`freshClient`. -/
def c10client : MCPClient :=
  { freshClient with
      tools := [tTool "search_products", tTool "sf_tool",
        tTool "search_products", tTool "sf_tool", tTool "cust_tool"]
      storefrontTools := [tTool "search_products", tTool "sf_tool"]
      customerTools := [tTool "cust_tool"] }

/-- A provider stub turn: some text, a completed message, a text
content block, and a final message that ends the turn. -/
def stubTurn : ProviderTurn :=
  { invocations := [CallbackInvocation.onText "Hello",
      CallbackInvocation.onMessage "assistant" "Hello",
      CallbackInvocation.onContentBlock "text" "Hello"]
    final := { role := "assistant", content := "Hello", stop_reason := some "end_turn" } }

/-- A provider stub that always returns `stop_reason: end_turn`. -/
def stubProvider : Nat → ProviderTurn := fun _ => stubTurn

/-- A concrete 500 response. -/
def r500 : HttpResponse :=
  { status := 500, statusText := "Server Error", location := none, text := "boom" }

/-- A concrete 200 response whose body is an HTML page. -/
def r200 : HttpResponse :=
  { status := 200, statusText := "OK", location := some "https://shop.example/login", text := "<html>" }

/-! ## Structural lemmas about the client operations -/

theorem callCustomerTool_client_eq (env : Env) (c : MCPClient) (toolName toolArgs : String) :
    (callCustomerTool env c toolName toolArgs).2.1 =
      { c with customerAccessToken := callToken env c } := by
  unfold callCustomerTool
  split
  · rfl
  · split <;> rfl

theorem callCustomerTool_effects_eq (env : Env) (c : MCPClient) (toolName toolArgs : String) :
    (callCustomerTool env c toolName toolArgs).2.2 =
      callLookupEffects c
        ++ [Effect.fetchCall c.customerMcpEndpoint "tools/call"
              (headersWithToken (callToken env c)).authorization] ∨
    (callCustomerTool env c toolName toolArgs).2.2 =
      callLookupEffects c
        ++ [Effect.fetchCall c.customerMcpEndpoint "tools/call"
              (headersWithToken (callToken env c)).authorization,
            Effect.authUrlCall c.conversationId c.shopId] := by
  unfold callCustomerTool
  split
  · left; rfl
  · split
    · right; rfl
    · left; rfl

theorem connectToStorefrontServer_error_client {env : Env} {c c1 : MCPClient}
    {e : JsError} {effs : List Effect}
    (h : connectToStorefrontServer env c = (Except.error e, c1, effs)) : c1 = c := by
  unfold connectToStorefrontServer at h
  split at h
  · simp only [Prod.mk.injEq] at h
    exact h.2.1.symm
  · simp at h

theorem connectToStorefrontServer_ok_client {env : Env} {c c1 : MCPClient}
    {ts : List Tool} {effs : List Effect}
    (h : connectToStorefrontServer env c = (Except.ok ts, c1, effs)) :
    c1 = { c with storefrontTools := ts, tools := c.tools ++ ts } := by
  unfold connectToStorefrontServer at h
  split at h
  · simp at h
  · simp only [Prod.mk.injEq] at h
    obtain ⟨h1, h2, _⟩ := h
    cases h1
    exact h2.symm

theorem connectToCustomerServer_error_client {env : Env} {c c1 : MCPClient}
    {e : JsError} {effs : List Effect}
    (h : connectToCustomerServer env c = (Except.error e, c1, effs)) :
    c1 = { c with customerAccessToken := connectToken env c } := by
  unfold connectToCustomerServer at h
  split at h
  · simp only [Prod.mk.injEq] at h
    exact h.2.1.symm
  · simp at h

theorem connectToCustomerServer_ok_client {env : Env} {c c1 : MCPClient}
    {ts : List Tool} {effs : List Effect}
    (h : connectToCustomerServer env c = (Except.ok ts, c1, effs)) :
    c1 = { c with customerAccessToken := connectToken env c
                  customerTools := ts
                  tools := c.tools ++ ts } := by
  unfold connectToCustomerServer at h
  split at h
  · simp at h
  · simp only [Prod.mk.injEq] at h
    obtain ⟨h1, h2, _⟩ := h
    cases h1
    exact h2.symm

/-! ## C4: unknown tool names -/

/-- C4: for a tool name advertised by neither catalog, dispatch throws a
`Tool ... not found` error naming the tool, leaves the client unchanged
and performs no network call (empty effect log). -/
theorem c4_not_found_no_network (env : Env) (c : MCPClient) (toolName toolArgs : String)
    (hc : (c.customerTools.any fun tool => tool.name == toolName) = false)
    (hs : (c.storefrontTools.any fun tool => tool.name == toolName) = false) :
    callTool env c toolName toolArgs =
      (Except.error { message := "Tool " ++ toolName ++ " not found", status := none },
        c, []) := by
  unfold callTool
  rw [hc, hs]
  rfl

/-- C4 witness: a concrete unknown name on a concrete catalog. -/
theorem c4_witness :
    ((sampleClient.customerTools.any fun tool => tool.name == "nope") = false) ∧
    ((sampleClient.storefrontTools.any fun tool => tool.name == "nope") = false) ∧
    callTool envDown sampleClient "nope" "args" =
      (Except.error { message := "Tool " ++ "nope" ++ " not found", status := none },
        sampleClient, []) :=
  ⟨by decide, by decide,
    c4_not_found_no_network envDown sampleClient "nope" "args" (by decide) (by decide)⟩

/-! ## C1: 401 recovery on the customer backend -/

/-- C1: when a tool owned by the customer catalog is dispatched and the
customer backend's `tools/call` comes back with HTTP 401, dispatch
resolves (never throws) with an `auth_required` error result whose data
embeds the URL from the authorization-URL generator, keyed by the
conversation id and shop id. -/
theorem c1_auth_required_on_401 (env : Env) (c : MCPClient) (toolName toolArgs : String)
    (howned : (c.customerTools.any fun tool => tool.name == toolName) = true)
    (h401 : ∀ p h, ∃ r, env.fetch c.customerMcpEndpoint "tools/call" p h = Except.ok r ∧
      r.status = 401) :
    (callTool env c toolName toolArgs).1 =
      Except.ok (ToolOutcome.errorResult "auth_required"
        (authRequiredMessage (env.generateAuthUrl c.conversationId c.shopId).url)) := by
  unfold callTool
  rw [howned]
  simp only [if_true]
  obtain ⟨r, hr, hst⟩ :=
    h401 (RpcParams.toolCall toolName toolArgs) (headersWithToken (callToken env c))
  unfold callCustomerTool
  rw [hr]
  have hok : r.ok = false := by
    unfold HttpResponse.ok
    rw [hst]
    decide
  unfold makeJsonRpcRequest
  simp [hok, hst]

/-- C1 witness: a customer-owned tool against an always-401 backend. -/
theorem c1_witness :
    ((sampleClient.customerTools.any fun tool => tool.name == "cust_tool") = true) ∧
    (callTool env401 sampleClient "cust_tool" "args").1 =
      Except.ok (ToolOutcome.errorResult "auth_required"
        (authRequiredMessage
          (env401.generateAuthUrl sampleClient.conversationId sampleClient.shopId).url)) :=
  ⟨by decide,
    c1_auth_required_on_401 env401 sampleClient "cust_tool" "args" (by decide)
      (fun _ _ => ⟨_, rfl, rfl⟩)⟩

/-! ## C2: collision precedence -/

/-- C2: a tool name advertised by both catalogs dispatches to the
customer backend: `callTool` returns exactly the customer call's
outcome, state and effects, and every network call it makes targets the
customer endpoint. -/
theorem c2_customer_precedence (env : Env) (c : MCPClient) (toolName toolArgs : String)
    (hcust : (c.customerTools.any fun tool => tool.name == toolName) = true)
    (_hsf : (c.storefrontTools.any fun tool => tool.name == toolName) = true) :
    callTool env c toolName toolArgs =
      (Except.ok (callCustomerTool env c toolName toolArgs).1,
        (callCustomerTool env c toolName toolArgs).2.1,
        (callCustomerTool env c toolName toolArgs).2.2) ∧
    (∀ ep m auth, Effect.fetchCall ep m auth ∈ (callTool env c toolName toolArgs).2.2 →
      ep = c.customerMcpEndpoint) := by
  have hroute : callTool env c toolName toolArgs =
      (Except.ok (callCustomerTool env c toolName toolArgs).1,
        (callCustomerTool env c toolName toolArgs).2.1,
        (callCustomerTool env c toolName toolArgs).2.2) := by
    unfold callTool
    rw [hcust]
    rfl
  refine ⟨hroute, fun ep m auth hmem => ?_⟩
  rw [hroute] at hmem
  simp only at hmem
  rcases callCustomerTool_effects_eq env c toolName toolArgs with heq | heq
  · rw [heq] at hmem
    rcases List.mem_append.mp hmem with h2 | h2
    · unfold callLookupEffects at h2
      split at h2 <;> simp_all
    · simp only [List.mem_singleton, Effect.fetchCall.injEq] at h2
      exact h2.1
  · rw [heq] at hmem
    rcases List.mem_append.mp hmem with h2 | h2
    · unfold callLookupEffects at h2
      split at h2 <;> simp_all
    · rcases List.mem_cons.mp h2 with h3 | h3
      · simp only [Effect.fetchCall.injEq] at h3
        exact h3.1
      · simp only [List.mem_singleton] at h3
        simp at h3

/-- C2 witness: `both_tool` is advertised by both catalogs, and
dispatch routes it to the customer backend. -/
theorem c2_witness :
    ((sampleClient.customerTools.any fun tool => tool.name == "both_tool") = true) ∧
    ((sampleClient.storefrontTools.any fun tool => tool.name == "both_tool") = true) ∧
    callTool envOk sampleClient "both_tool" "args" =
      (Except.ok (callCustomerTool envOk sampleClient "both_tool" "args").1,
        (callCustomerTool envOk sampleClient "both_tool" "args").2.1,
        (callCustomerTool envOk sampleClient "both_tool" "args").2.2) :=
  ⟨by decide, by decide,
    (c2_customer_precedence envOk sampleClient "both_tool" "args" (by decide) (by decide)).1⟩

/-! ## C3: dispatch failure normalization -/

/-- C3 counterexample: `sf_tool` is owned by the storefront catalog; a
network failure during its `tools/call` is rethrown by dispatch instead
of being returned as an `internal_error` result — `callTool` raises past
its boundary. -/
theorem c3_counterexample :
    (callTool envDown sampleClient "sf_tool" "args").1 =
      Except.error { message := "network down", status := none } := by
  rfl

/-- C3 amended: only customer-owned tool dispatch is caught and
normalized (non-401 failures become `internal_error` results, and the
customer path never throws); storefront-owned tool failures are
rethrown, and an unknown name throws `Tool ... not found`. -/
theorem c3_amended_dispatch (env : Env) (c : MCPClient) (toolName toolArgs : String) :
    ((c.customerTools.any fun tool => tool.name == toolName) = true →
      (∃ o, (callTool env c toolName toolArgs).1 = Except.ok o) ∧
      (∀ e, (∀ p h, env.fetch c.customerMcpEndpoint "tools/call" p h = Except.error e) →
        e.status ≠ some 401 →
        (callTool env c toolName toolArgs).1 =
          Except.ok (ToolOutcome.errorResult "internal_error"
            ("Error calling tool " ++ toolName ++ ": " ++ e.message)))) ∧
    ((c.customerTools.any fun tool => tool.name == toolName) = false →
      (c.storefrontTools.any fun tool => tool.name == toolName) = true →
      ∀ e, (∀ p h, env.fetch c.storefrontMcpEndpoint "tools/call" p h = Except.error e) →
        (callTool env c toolName toolArgs).1 = Except.error e) ∧
    ((c.customerTools.any fun tool => tool.name == toolName) = false →
      (c.storefrontTools.any fun tool => tool.name == toolName) = false →
      (callTool env c toolName toolArgs).1 =
        Except.error { message := "Tool " ++ toolName ++ " not found", status := none }) := by
  refine ⟨fun hcust => ⟨?_, ?_⟩, fun hcust hsf e hfetch => ?_, fun hcust hsf => ?_⟩
  · unfold callTool
    rw [hcust]
    exact ⟨_, rfl⟩
  · intro e hfetch hne
    unfold callTool
    rw [hcust]
    simp only [if_true]
    unfold callCustomerTool
    rw [hfetch (RpcParams.toolCall toolName toolArgs) (headersWithToken (callToken env c))]
    unfold makeJsonRpcRequest
    simp [hne]
  · unfold callTool
    rw [hcust, hsf]
    simp only [Bool.false_eq_true, if_false, if_true]
    unfold callStorefrontTool
    rw [hfetch (RpcParams.toolCall toolName toolArgs)
      { contentType := "application/json", authorization := none }]
    unfold makeJsonRpcRequest
    simp
  · unfold callTool
    rw [hcust, hsf]
    rfl

/-- C3 amended witness: on a concrete down network, a customer-owned
tool yields an `internal_error` result, a storefront-owned tool
rethrows, and an unknown name throws not-found. -/
theorem c3_amended_witness :
    (callTool envDown sampleClient "cust_tool" "args").1 =
      Except.ok (ToolOutcome.errorResult "internal_error"
        ("Error calling tool " ++ "cust_tool" ++ ": " ++ "network down")) ∧
    (callTool envDown sampleClient "sf_tool" "args").1 =
      Except.error { message := "network down", status := none } ∧
    (callTool envDown sampleClient "nope" "args").1 =
      Except.error { message := "Tool " ++ "nope" ++ " not found", status := none } :=
  ⟨((c3_amended_dispatch envDown sampleClient "cust_tool" "args").1 (by decide)).2
      { message := "network down", status := none } (fun _ _ => rfl) (by decide),
    (c3_amended_dispatch envDown sampleClient "sf_tool" "args").2.1 (by decide) (by decide)
      { message := "network down", status := none } (fun _ _ => rfl),
    (c3_amended_dispatch envDown sampleClient "nope" "args").2.2 (by decide) (by decide)⟩

/-! ## C5: HTTP errors versus protocol errors -/

/-- C5: a non-2xx response makes the RPC layer throw an error carrying
the HTTP status and a body snippet; a 2xx response whose body does not
parse throws an error without a status (distinguishable from the HTTP
case); in both failure cases no decoded envelope is returned. -/
theorem c5_http_vs_protocol (parse : String → Option Envelope) (r : HttpResponse) :
    (r.ok = false →
      makeJsonRpcRequest parse (Except.ok r) =
        Except.error
          { message := "Request failed: " ++ toString r.status ++ " " ++ r.statusText
              ++ " -- " ++ r.text.take 200
            status := some r.status }) ∧
    (r.ok = true → parse r.text = none →
      makeJsonRpcRequest parse (Except.ok r) =
        Except.error { message := "Unexpected token in JSON", status := none }) ∧
    ((r.ok = false ∨ parse r.text = none) →
      ∀ envl, makeJsonRpcRequest parse (Except.ok r) ≠ Except.ok envl) := by
  have h1 : r.ok = false →
      makeJsonRpcRequest parse (Except.ok r) =
        Except.error
          { message := "Request failed: " ++ toString r.status ++ " " ++ r.statusText
              ++ " -- " ++ r.text.take 200
            status := some r.status } := by
    intro hok
    unfold makeJsonRpcRequest
    simp [hok]
  have h2 : r.ok = true → parse r.text = none →
      makeJsonRpcRequest parse (Except.ok r) =
        Except.error { message := "Unexpected token in JSON", status := none } := by
    intro hok hp
    unfold makeJsonRpcRequest
    simp [hok, hp]
  refine ⟨h1, h2, fun hcase envl heq => ?_⟩
  by_cases hok : r.ok = true
  · rcases hcase with hfalse | hp
    · rw [hok] at hfalse
      cases hfalse
    · rw [h2 hok hp] at heq
      cases heq
  · rw [Bool.not_eq_true] at hok
    rw [h1 hok] at heq
    cases heq

/-- C5 witness: a concrete 500 response and a concrete 200 response
with an unparseable HTML body, under a parser that rejects both. -/
theorem c5_witness :
    (r500.ok = false ∧
      makeJsonRpcRequest (fun _ => none) (Except.ok r500) =
        Except.error
          { message := "Request failed: " ++ toString r500.status ++ " " ++ r500.statusText
              ++ " -- " ++ r500.text.take 200
            status := some r500.status }) ∧
    (r200.ok = true ∧
      makeJsonRpcRequest (fun _ => none) (Except.ok r200) =
        Except.error { message := "Unexpected token in JSON", status := none }) :=
  ⟨⟨by decide, (c5_http_vs_protocol (fun _ => none) r500).1 (by decide)⟩,
    ⟨by decide, (c5_http_vs_protocol (fun _ => none) r200).2.1 (by decide) rfl⟩⟩

/-! ## C8: lazy memoized credential resolution -/

theorem callCustomerTool_lookup_countP (env : Env) (c : MCPClient) (toolName toolArgs : String) :
    ((callCustomerTool env c toolName toolArgs).2.2.countP fun e => isTokenLookupEffect e) =
      if c.customerAccessToken = "" then 1 else 0 := by
  rcases callCustomerTool_effects_eq env c toolName toolArgs with heq | heq <;>
    rw [heq, List.countP_append] <;>
    unfold callLookupEffects <;>
    split <;>
    simp [List.countP_cons, List.countP_nil, isTokenLookupEffect]

/-- C8: credential resolution in `callCustomerTool` is lazy and
memoized: a cached non-empty token suppresses the store lookup and is
kept; an empty cache triggers exactly one lookup keyed by the
conversation id; a found non-empty token is cached on the client; and
when no token is persisted the request goes out without an
`Authorization` header, so an all-401 backend drives the call into the
`auth_required` recovery result. -/
theorem c8_lazy_memoized_token (env : Env) (c : MCPClient) (toolName toolArgs : String) :
    (c.customerAccessToken ≠ "" →
      ((callCustomerTool env c toolName toolArgs).2.2.countP fun e => isTokenLookupEffect e) = 0 ∧
      (callCustomerTool env c toolName toolArgs).2.1.customerAccessToken =
        c.customerAccessToken) ∧
    (c.customerAccessToken = "" →
      ((callCustomerTool env c toolName toolArgs).2.2.countP fun e => isTokenLookupEffect e) = 1 ∧
      Effect.tokenLookup c.conversationId ∈ (callCustomerTool env c toolName toolArgs).2.2) ∧
    (c.customerAccessToken = "" →
      ∀ t, env.getCustomerToken c.conversationId = some t → t.accessToken ≠ "" →
        (callCustomerTool env c toolName toolArgs).2.1.customerAccessToken = t.accessToken) ∧
    (c.customerAccessToken = "" → env.getCustomerToken c.conversationId = none →
      Effect.fetchCall c.customerMcpEndpoint "tools/call" none ∈
        (callCustomerTool env c toolName toolArgs).2.2 ∧
      ((∀ p h, ∃ r, env.fetch c.customerMcpEndpoint "tools/call" p h = Except.ok r ∧
          r.status = 401) →
        (callCustomerTool env c toolName toolArgs).1 =
          ToolOutcome.errorResult "auth_required"
            (authRequiredMessage (env.generateAuthUrl c.conversationId c.shopId).url))) := by
  have hcache : (callCustomerTool env c toolName toolArgs).2.1.customerAccessToken =
      callToken env c := by
    rw [callCustomerTool_client_eq]
  refine ⟨fun hne => ⟨?_, ?_⟩, fun hemp => ⟨?_, ?_⟩, fun hemp t ht htne => ?_,
    fun hemp hnone => ⟨?_, ?_⟩⟩
  · rw [callCustomerTool_lookup_countP, if_neg hne]
  · rw [hcache]
    unfold callToken
    rw [if_neg hne]
  · rw [callCustomerTool_lookup_countP, if_pos hemp]
  · rcases callCustomerTool_effects_eq env c toolName toolArgs with heq | heq <;>
      rw [heq] <;>
      refine List.mem_append.mpr (Or.inl ?_) <;>
      unfold callLookupEffects <;>
      rw [if_pos hemp] <;>
      exact List.mem_singleton.mpr rfl
  · rw [hcache]
    unfold callToken
    rw [if_pos hemp, ht]
    simp [htne]
  · have htok : callToken env c = "" := by
      unfold callToken
      rw [if_pos hemp, hnone]
    have hauth : (headersWithToken (callToken env c)).authorization = none := by
      rw [htok]
      rfl
    rcases callCustomerTool_effects_eq env c toolName toolArgs with heq | heq <;>
      rw [heq] <;>
      refine List.mem_append.mpr (Or.inr ?_) <;>
      rw [hauth] at * <;>
      simp [heq]
  · intro h401
    obtain ⟨r, hr, hst⟩ :=
      h401 (RpcParams.toolCall toolName toolArgs) (headersWithToken (callToken env c))
    have hok : r.ok = false := by
      unfold HttpResponse.ok
      rw [hst]
      decide
    unfold callCustomerTool
    rw [hr]
    unfold makeJsonRpcRequest
    simp [hok, hst]

/-- C8 witness: with a cached token no lookup happens and the cache is
kept; with an empty cache exactly one lookup happens; a persisted token
is cached; with no persisted token the request is unauthenticated and an
all-401 backend yields the `auth_required` result. -/
theorem c8_witness :
    (((callCustomerTool envTok tokClient "cust_tool" "args").2.2.countP
        fun e => isTokenLookupEffect e) = 0 ∧
      (callCustomerTool envTok tokClient "cust_tool" "args").2.1.customerAccessToken =
        tokClient.customerAccessToken) ∧
    (((callCustomerTool envTok sampleClient "cust_tool" "args").2.2.countP
        fun e => isTokenLookupEffect e) = 1 ∧
      Effect.tokenLookup sampleClient.conversationId ∈
        (callCustomerTool envTok sampleClient "cust_tool" "args").2.2) ∧
    (callCustomerTool envTok sampleClient "cust_tool" "args").2.1.customerAccessToken =
      "tok456" ∧
    (Effect.fetchCall sampleClient.customerMcpEndpoint "tools/call" none ∈
      (callCustomerTool env401 sampleClient "cust_tool" "args").2.2 ∧
      (callCustomerTool env401 sampleClient "cust_tool" "args").1 =
        ToolOutcome.errorResult "auth_required"
          (authRequiredMessage
            (env401.generateAuthUrl sampleClient.conversationId sampleClient.shopId).url)) :=
  ⟨(c8_lazy_memoized_token envTok tokClient "cust_tool" "args").1 (by decide),
    (c8_lazy_memoized_token envTok sampleClient "cust_tool" "args").2.1 (by decide),
    (c8_lazy_memoized_token envTok sampleClient "cust_tool" "args").2.2.1 (by decide)
      { accessToken := "tok456" } (by decide) (by decide),
    ⟨((c8_lazy_memoized_token env401 sampleClient "cust_tool" "args").2.2.2 (by decide)
        (by decide)).1,
      ((c8_lazy_memoized_token env401 sampleClient "cust_tool" "args").2.2.2 (by decide)
        (by decide)).2 (fun _ _ => ⟨_, rfl, rfl⟩)⟩⟩

/-! ## C6: catalog-discovery degradation -/

/-- C6 counterexample: with the storefront backend down and the
customer backend healthy (gated on), the session continues with a
warning, but the merged catalog is empty even though the customer
backend — a backend whose discovery does not fail — would contribute a
non-empty catalog: discovery stops at the first failure instead of
proceeding with the remaining backends' catalogs. -/
theorem c6_counterexample :
    (connectPhase envSfDown true true freshClient).warned = true ∧
    (connectPhase envSfDown true true freshClient).client.tools = [] ∧
    (connectPhase envSfDown true true freshClient).customerMcpTools = [] ∧
    (connectToCustomerServer envSfDown freshClient).1 = Except.ok [tTool "cust_tool"] ∧
    ([tTool "cust_tool"] : List Tool) ≠ [] := by
  refine ⟨rfl, rfl, rfl, rfl, ?_⟩
  decide

/-- C6 amended: catalog-discovery failure is non-fatal and surfaces a
warning, but the single `try` block stops at the first failure: a
storefront failure leaves the whole session catalog as it was (customer
discovery is skipped even when it would succeed), while a customer
failure after a storefront success leaves exactly the storefront
catalog. -/
theorem c6_amended_discovery (env : Env) (gate1 gate2 : Bool) (c : MCPClient) :
    (∀ e c1 effs, connectToStorefrontServer env c = (Except.error e, c1, effs) →
      connectPhase env gate1 gate2 c =
        { client := c, storefrontMcpTools := [], customerMcpTools := [], warned := true }) ∧
    (∀ sf c1 effs e2 c2 effs2,
      connectToStorefrontServer env c = (Except.ok sf, c1, effs) →
      connectToCustomerServer env c1 = (Except.error e2, c2, effs2) →
      gate1 = true → gate2 = true →
      connectPhase env gate1 gate2 c =
        { client := c2, storefrontMcpTools := sf, customerMcpTools := [], warned := true } ∧
      c2.tools = c.tools ++ sf) := by
  constructor
  · intro e c1 effs h
    have hc1 : c1 = c := connectToStorefrontServer_error_client h
    subst hc1
    unfold connectPhase
    rw [h]
  · intro sf c1 effs e2 c2 effs2 hsf hcu hg1 hg2
    subst hg1
    subst hg2
    have hc1 : c1 = { c with storefrontTools := sf, tools := c.tools ++ sf } :=
      connectToStorefrontServer_ok_client hsf
    have hc2 : c2 = { c1 with customerAccessToken := connectToken env c1 } :=
      connectToCustomerServer_error_client hcu
    constructor
    · unfold connectPhase
      rw [hsf]
      simp only [Bool.and_self, if_true]
      rw [hcu]
    · rw [hc2, hc1]

/-- C6 amended witness: a concrete storefront failure skips customer
discovery entirely; a concrete customer failure keeps the storefront
catalog. -/
theorem c6_amended_witness :
    connectPhase envSfDown true true freshClient =
      { client := freshClient, storefrontMcpTools := [], customerMcpTools := [],
        warned := true } ∧
    (connectPhase envCustDown true true freshClient =
      { client := (connectToCustomerServer envCustDown
          (connectToStorefrontServer envCustDown freshClient).2.1).2.1,
        storefrontMcpTools := [tTool "search_products", tTool "sf_tool"],
        customerMcpTools := [], warned := true } ∧
      (connectToCustomerServer envCustDown
          (connectToStorefrontServer envCustDown freshClient).2.1).2.1.tools =
        freshClient.tools ++ [tTool "search_products", tTool "sf_tool"]) :=
  ⟨(c6_amended_discovery envSfDown true true freshClient).1
      { message := "network down", status := none } freshClient
      [Effect.fetchCall sfEP "tools/list" none] rfl,
    (c6_amended_discovery envCustDown true true freshClient).2
      [tTool "search_products", tTool "sf_tool"]
      (connectToStorefrontServer envCustDown freshClient).2.1
      (connectToStorefrontServer envCustDown freshClient).2.2
      { message := "network down", status := none }
      (connectToCustomerServer envCustDown
        (connectToStorefrontServer envCustDown freshClient).2.1).2.1
      (connectToCustomerServer envCustDown
        (connectToStorefrontServer envCustDown freshClient).2.1).2.2
      rfl rfl rfl rfl⟩

/-! ## C9: merged catalog size -/

/-- C9: descriptor normalization preserves the number and order of
tools, and after connecting both backends from a fresh client the merged
catalog's size is the sum of the per-backend catalog sizes (no
deduplication). -/
theorem c9_merge_size :
    (∀ l, (formatToolsData l).length = l.length ∧
      (formatToolsData l).map Tool.name = l.map RawTool.name) ∧
    (∀ (env : Env) (c c1 c2 : MCPClient) (sf cu : List Tool) (effs effs2 : List Effect),
      c.tools = [] →
      connectToStorefrontServer env c = (Except.ok sf, c1, effs) →
      connectToCustomerServer env c1 = (Except.ok cu, c2, effs2) →
      c2.tools.length = sf.length + cu.length) := by
  constructor
  · intro l
    constructor
    · unfold formatToolsData
      exact List.length_map _ _
    · unfold formatToolsData
      rw [List.map_map]
      rfl
  · intro env c c1 c2 sf cu effs effs2 h0 hsf hcu
    have hc1 : c1 = { c with storefrontTools := sf, tools := c.tools ++ sf } :=
      connectToStorefrontServer_ok_client hsf
    have hc2 : c2 = { c1 with customerAccessToken := connectToken env c1
                              customerTools := cu
                              tools := c1.tools ++ cu } :=
      connectToCustomerServer_ok_client hcu
    rw [hc2]
    simp only
    rw [hc1]
    simp only
    rw [h0]
    simp [List.length_append]

/-- C9 witness: a fresh client connects to a storefront advertising two
tools and a customer backend advertising one; the merged list has three
entries. -/
theorem c9_witness :
    freshClient.tools = [] ∧
    (connectToStorefrontServer envOk freshClient).1 =
      Except.ok [tTool "search_products", tTool "sf_tool"] ∧
    (connectToCustomerServer envOk
        (connectToStorefrontServer envOk freshClient).2.1).1 =
      Except.ok [tTool "cust_tool"] ∧
    (connectToCustomerServer envOk
        (connectToStorefrontServer envOk freshClient).2.1).2.1.tools.length =
      ([tTool "search_products", tTool "sf_tool"] : List Tool).length +
        ([tTool "cust_tool"] : List Tool).length :=
  ⟨rfl, rfl, rfl,
    c9_merge_size.2 envOk freshClient
      (connectToStorefrontServer envOk freshClient).2.1
      (connectToCustomerServer envOk
        (connectToStorefrontServer envOk freshClient).2.1).2.1
      [tTool "search_products", tTool "sf_tool"] [tTool "cust_tool"]
      (connectToStorefrontServer envOk freshClient).2.2
      (connectToCustomerServer envOk
        (connectToStorefrontServer envOk freshClient).2.1).2.2
      rfl rfl rfl⟩

/-! ## C10: accumulation of the merged tool list across connects -/

/-- C10: after any sequence of successful connect calls, the merged
list is the initial list followed by each call's returned catalog in
call order (never cleared or reordered, duplicates kept), while each
per-backend field holds exactly the most recently fetched catalog for
that backend. -/
theorem c10_connect_accumulation (env : Env) (calls : List ConnectChoice) :
    ∀ (c c' : MCPClient) (pairs : List (ConnectChoice × List Tool)),
      runConnects env c calls = some (c', pairs) →
      c'.tools = c.tools ++ (pairs.map Prod.snd).flatten ∧
      c'.storefrontTools = lastCatalog ConnectChoice.storefront pairs c.storefrontTools ∧
      c'.customerTools = lastCatalog ConnectChoice.customer pairs c.customerTools := by
  induction calls with
  | nil =>
    intro c c' pairs h
    unfold runConnects at h
    simp only [Option.some.injEq, Prod.mk.injEq] at h
    obtain ⟨h1, h2⟩ := h
    subst h1
    subst h2
    simp [lastCatalog]
  | cons choice rest ih =>
    intro c c' pairs h
    cases choice with
    | storefront =>
      unfold runConnects at h
      split at h
      · exact Option.noConfusion h
      · rename_i ts c1 snd heq
        split at h
        · exact Option.noConfusion h
        · rename_i c2 ps hrec
          simp only [Option.some.injEq, Prod.mk.injEq] at h
          obtain ⟨h1, h2⟩ := h
          subst h1
          subst h2
          obtain ⟨ht, hs, hcu⟩ := ih c1 c2 ps hrec
          have hc1 : c1 = { c with storefrontTools := ts, tools := c.tools ++ ts } :=
            connectToStorefrontServer_ok_client heq
          subst hc1
          refine ⟨?_, ?_, ?_⟩
          · rw [ht]
            simp [List.append_assoc]
          · rw [hs]
            simp [lastCatalog]
          · rw [hcu]
            simp [lastCatalog]
    | customer =>
      unfold runConnects at h
      split at h
      · exact Option.noConfusion h
      · rename_i ts c1 snd heq
        split at h
        · exact Option.noConfusion h
        · rename_i c2 ps hrec
          simp only [Option.some.injEq, Prod.mk.injEq] at h
          obtain ⟨h1, h2⟩ := h
          subst h1
          subst h2
          obtain ⟨ht, hs, hcu⟩ := ih c1 c2 ps hrec
          have hc1 : c1 = { c with customerAccessToken := connectToken env c
                                   customerTools := ts
                                   tools := c.tools ++ ts } :=
            connectToCustomerServer_ok_client heq
          subst hc1
          refine ⟨?_, ?_, ?_⟩
          · rw [ht]
            simp [List.append_assoc]
          · rw [hs]
            simp [lastCatalog]
          · rw [hcu]
            simp [lastCatalog]

/-- C10 witness: connecting to the storefront twice and then to the
customer backend appends the storefront catalog twice (duplicates kept),
and the per-backend fields hold the latest catalogs. -/
theorem c10_witness :
    runConnects envOk freshClient
        [ConnectChoice.storefront, ConnectChoice.storefront, ConnectChoice.customer] =
      some (c10client, c10pairs) ∧
    c10client.tools = freshClient.tools ++ (c10pairs.map Prod.snd).flatten ∧
    c10client.storefrontTools =
      lastCatalog ConnectChoice.storefront c10pairs freshClient.storefrontTools ∧
    c10client.customerTools =
      lastCatalog ConnectChoice.customer c10pairs freshClient.customerTools :=
  ⟨rfl,
    c10_connect_accumulation envOk
      [ConnectChoice.storefront, ConnectChoice.storefront, ConnectChoice.customer]
      freshClient c10client c10pairs rfl⟩

/-! ## C7: conversation-loop termination -/

theorem eventsOfInvocation_countP_endTurn (inv : CallbackInvocation) :
    ((eventsOfInvocation inv).countP fun e => isEndTurnEvent e) = 0 := by
  cases inv with
  | onText d => rfl
  | onMessage r ct => rfl
  | onToolUse n i t => rfl
  | onContentBlock b t =>
    simp only [eventsOfInvocation]
    split
    · rfl
    · rfl

theorem eventsOfInvocation_countP_toolUse (inv : CallbackInvocation)
    (hnot : isToolUseInvocation inv = false) :
    ((eventsOfInvocation inv).countP fun e => isToolUseEvent e) = 0 := by
  cases inv with
  | onText d => rfl
  | onMessage r ct => rfl
  | onToolUse n i t => exact Bool.noConfusion hnot
  | onContentBlock b t =>
    simp only [eventsOfInvocation]
    split
    · rfl
    · rfl

theorem flatten_countP_zero {α β : Type} (f : α → List β) (p : β → Bool) :
    ∀ l : List α, (∀ x ∈ l, (f x).countP p = 0) →
      (((l.map f).flatten).countP p) = 0 := by
  intro l
  induction l with
  | nil => intro _; rfl
  | cons hd tl ih =>
    intro h
    rw [List.map_cons, List.flatten_cons, List.countP_append,
      h hd (List.mem_cons_self hd tl), ih fun x hx => h x (List.mem_cons_of_mem hd hx)]

theorem eventsOfTurn_countP_endTurn (t : ProviderTurn) :
    ((eventsOfTurn t).countP fun e => isEndTurnEvent e) = 0 :=
  flatten_countP_zero eventsOfInvocation _ t.invocations
    fun inv _ => eventsOfInvocation_countP_endTurn inv

theorem eventsOfTurn_countP_toolUse (t : ProviderTurn)
    (h : ∀ inv ∈ t.invocations, isToolUseInvocation inv = false) :
    ((eventsOfTurn t).countP fun e => isToolUseEvent e) = 0 :=
  flatten_countP_zero eventsOfInvocation _ t.invocations
    fun inv hmem => eventsOfInvocation_countP_toolUse inv (h inv hmem)

theorem runConversationLoop_terminates (p : Nat → ProviderTurn) (fuel : Nat) :
    ∀ (calls : Nat) (stopR : Option String) (events : List StreamEvent)
      (n : Nat) (out : List StreamEvent),
      runConversationLoop p fuel calls stopR events = some (n, out) →
      calls ≤ n ∧
      (stopR = some "end_turn" → n = calls) ∧
      (stopR ≠ some "end_turn" →
        calls < n ∧ (p (n - 1)).final.stop_reason = some "end_turn" ∧
        ∀ i, calls ≤ i → i + 1 < n → (p i).final.stop_reason ≠ some "end_turn") := by
  induction fuel with
  | zero =>
    intro calls stopR events n out h
    exact Option.noConfusion h
  | succ f ihf =>
    intro calls stopR events n out h
    unfold runConversationLoop at h
    by_cases hstop : stopR = some "end_turn"
    · rw [if_pos hstop] at h
      simp only [Option.some.injEq, Prod.mk.injEq] at h
      obtain ⟨h1, _⟩ := h
      subst h1
      exact ⟨Nat.le_refl _, fun _ => rfl, fun hne => absurd hstop hne⟩
    · rw [if_neg hstop] at h
      obtain ⟨hle, hterm, hcont⟩ :=
        ihf (calls + 1) (p calls).final.stop_reason (events ++ eventsOfTurn (p calls)) n out h
      refine ⟨by omega, fun hc => absurd hc hstop, fun _ => ?_⟩
      by_cases hps : (p calls).final.stop_reason = some "end_turn"
      · have hn : n = calls + 1 := hterm hps
        subst hn
        refine ⟨by omega, ?_, ?_⟩
        · have hidx : calls + 1 - 1 = calls := by omega
          rw [hidx]
          exact hps
        · intro i hi1 hi2
          exfalso
          omega
      · obtain ⟨hlt, hlast, hmid⟩ := hcont hps
        refine ⟨by omega, hlast, ?_⟩
        intro i hi1 hi2
        rcases Nat.eq_or_lt_of_le hi1 with heq | hgt
        · rw [← heq]
          exact hps
        · exact hmid i (by omega) hi2

theorem runConversationLoop_stub (p : Nat → ProviderTurn) (k : Nat)
    (hstop : (p 0).final.stop_reason = some "end_turn") :
    runConversationLoop p (k + 1 + 1) 0 none [] = some (1, eventsOfTurn (p 0)) := by
  unfold runConversationLoop
  rw [if_neg (by simp)]
  unfold runConversationLoop
  rw [hstop, if_pos rfl]
  simp

/-- C7: the conversation loop makes exactly one provider call per
iteration and repeats while the last turn's stop reason is not
`end_turn`: whenever the loop fragment terminates after `m` calls, the
`m`-th call ended the turn and no earlier call did; and with a provider
whose first call already returns `end_turn` (and requests no tool use),
the session makes exactly one call, emits exactly one `end_turn` event
and no `tool_use` event. -/
theorem c7_loop_end_turn (p : Nat → ProviderTurn) (fuel : Nat) (hfuel : 2 ≤ fuel)
    (hstop : (p 0).final.stop_reason = some "end_turn")
    (hnotool : ∀ inv ∈ (p 0).invocations, isToolUseInvocation inv = false) :
    (chatSessionRun p fuel = some (1, eventsOfTurn (p 0) ++ [StreamEvent.endTurn]) ∧
      ((eventsOfTurn (p 0) ++ [StreamEvent.endTurn]).countP fun e => isEndTurnEvent e) = 1 ∧
      ((eventsOfTurn (p 0) ++ [StreamEvent.endTurn]).countP fun e => isToolUseEvent e) = 0) ∧
    (∀ (q : Nat → ProviderTurn) (g m : Nat) (evs : List StreamEvent),
      chatSessionRun q g = some (m, evs) →
      1 ≤ m ∧ (q (m - 1)).final.stop_reason = some "end_turn" ∧
      ∀ i, i + 1 < m → (q i).final.stop_reason ≠ some "end_turn") := by
  constructor
  · obtain ⟨k, hk⟩ : ∃ k, fuel = k + 1 + 1 := ⟨fuel - 2, by omega⟩
    subst hk
    have hrun := runConversationLoop_stub p k hstop
    refine ⟨?_, ?_, ?_⟩
    · unfold chatSessionRun
      rw [hrun]
    · rw [List.countP_append, eventsOfTurn_countP_endTurn]
      rfl
    · rw [List.countP_append, eventsOfTurn_countP_toolUse (p 0) hnotool]
      rfl
  · intro q g m evs hsess
    unfold chatSessionRun at hsess
    cases hloop : runConversationLoop q g 0 none [] with
    | none =>
      rw [hloop] at hsess
      exact Option.noConfusion hsess
    | some pr =>
      obtain ⟨n0, evs0⟩ := pr
      rw [hloop] at hsess
      simp only [Option.some.injEq, Prod.mk.injEq] at hsess
      obtain ⟨hm, _⟩ := hsess
      subst hm
      obtain ⟨_, _, hcont⟩ :=
        runConversationLoop_terminates q g 0 none [] n0 evs0 hloop
      obtain ⟨hpos, hlast, hmid⟩ := hcont (by simp)
      exact ⟨by omega, hlast, fun i hi => hmid i (Nat.zero_le i) hi⟩

/-- C7 witness: the concrete always-`end_turn` stub terminates after
one call with one `end_turn` event and no `tool_use` events. -/
theorem c7_witness :
    chatSessionRun stubProvider 2 = some (1, eventsOfTurn stubTurn ++ [StreamEvent.endTurn]) ∧
    ((eventsOfTurn stubTurn ++ [StreamEvent.endTurn]).countP fun e => isEndTurnEvent e) = 1 ∧
    ((eventsOfTurn stubTurn ++ [StreamEvent.endTurn]).countP fun e => isToolUseEvent e) = 0 :=
  (c7_loop_end_turn stubProvider 2 (by decide) rfl (by decide)).1

end MCP
